import Mathlib

/-!
# Serval process-isolation layer: shallow embedding

This file embeds, in Lean, the IPC core of the Serval browser prototype:

* the content-process worker `src/process/ContentProcess.worker.ts`
  (`ContentProcess`: navigation history, simulated page load, title
  derivation);
* the coordinator `MainProcess` (tab map, process registry, message
  handlers, crash handling) and the `ProcessMessages` protocol.

Modelling conventions, chosen to match the JavaScript source:

* A JS `Map` is an association list `List (String × α)`; `Map.set`
  replaces, `Map.delete` removes, `Map.get` returns `Option`.
* Protocol messages are the record of §6 of the design:
  `{ type: string, tabId?, url?, title?, processId? }`.  An absent
  optional field is the empty string; every guard the source performs on
  such a field is a JS truthiness test (`if (message.title)`,
  `if (!url)`, `if (tab.contentProcessId)`), and for strings JS
  truthiness is exactly `≠ ""`, so this representation is faithful.
* `setTimeout`-delayed emissions are flattened to the per-command event
  list in emission order (the order of nested timers); the spec itself
  states that only the order, not the timing, is contractual.
* The host WHATWG `URL` constructor used by `extractTitleFromUrl` is a
  parameter `parse : String → Option String` returning the hostname of a
  successfully parsed URL (`none` = the constructor throws).  A concrete
  instance `urlHost` models its behaviour on the inputs used in examples.
-/

namespace Serval

/-! ## JS `Map` as an association list -/

def mlookup {α : Type} (k : String) : List (String × α) → Option α
  | [] => none
  | (k', v) :: rest => if k' = k then some v else mlookup k rest

def mdel {α : Type} (k : String) : List (String × α) → List (String × α)
  | [] => []
  | (k', v) :: rest => if k' = k then mdel k rest else (k', v) :: mdel k rest

def mset {α : Type} (k : String) (v : α) (m : List (String × α)) :
    List (String × α) :=
  (k, v) :: mdel k m

/-! ## Message protocol (`ProcessMessages.ts`, §6 wire shape)

`{ type: string, tabId?: string, url?: string, title?: string,
processId?: string }` — absent optional fields are `""`. -/

structure Msg where
  type : String
  tabId : String := ""
  url : String := ""
  title : String := ""
  processId : String := ""
deriving Repr, DecidableEq

/-- The closed set of coordinator → unit command tags. -/
def commandTypes : List String :=
  ["initialize", "navigate", "back", "forward", "refresh", "shutdown"]

/-- The closed set of unit → coordinator event tags. -/
def eventTypes : List String :=
  ["ready", "titleChange", "urlChange", "loadStart", "loadComplete",
   "processCrash"]

/-! ## Content process worker (`ContentProcess.worker.ts`) -/

/-- Fields of the `ContentProcess` class: `tabId`, `currentUrl`,
`history`, `historyIndex` (a JS number starting at `-1`, hence `Int`). -/
structure CPState where
  tabId : String := ""
  currentUrl : String := ""
  history : List String := []
  historyIndex : Int := -1
deriving Repr, DecidableEq

/-- `extractTitleFromUrl`: `new URL(url).hostname || 'New Tab'`, with
`'New Tab'` on a parse failure.  `parse` stands for the host `URL`
constructor (hostname on success, `none` when it throws); the `|| 'New
Tab'` fallback fires exactly when the hostname is the empty string. -/
def extractTitleFromUrl (parse : String → Option String) (url : String) :
    String :=
  match parse url with
  | some h => if h = "" then "New Tab" else h
  | none => "New Tab"

/-- `simulatePageLoad(url)`: after the 300 ms timer, `titleChange` then
`urlChange`; after the nested 100 ms timer, `loadComplete`.  Flattened
to the emission-ordered event list. -/
def simulatePageLoad (parse : String → Option String) (tabId url : String) :
    List Msg :=
  [{ type := "titleChange", tabId := tabId,
     title := extractTitleFromUrl parse url },
   { type := "urlChange", tabId := tabId, url := url },
   { type := "loadComplete", tabId := tabId, url := url }]

/-- `navigate(url)`: no-op on a falsy (empty) url; otherwise emit
`loadStart`, truncate forward history, push the url, advance the cursor,
set `currentUrl`, then run the load simulation. -/
def navigate (parse : String → Option String) (s : CPState) (url : String) :
    CPState × List Msg :=
  if url = "" then (s, [])
  else
    let loadStartMsg : Msg := { type := "loadStart", tabId := s.tabId, url := url }
    let hist0 :=
      if s.historyIndex < (s.history.length : Int) - 1 then
        s.history.take (s.historyIndex + 1).toNat
      else s.history
    let hist := hist0 ++ [url]
    let s' : CPState :=
      { s with history := hist, historyIndex := (hist.length : Int) - 1,
               currentUrl := url }
    (s', loadStartMsg :: simulatePageLoad parse s.tabId url)

/-- `goBack()`: only when `historyIndex > 0`; decrement the cursor, emit
`urlChange` for the new current URL, then run the load simulation. -/
def goBack (parse : String → Option String) (s : CPState) :
    CPState × List Msg :=
  if s.historyIndex > 0 then
    let i := s.historyIndex - 1
    let url := s.history.getD i.toNat ""
    let s' : CPState := { s with historyIndex := i, currentUrl := url }
    (s', { type := "urlChange", tabId := s.tabId, url := url } ::
         simulatePageLoad parse s.tabId url)
  else (s, [])

/-- `goForward()`: only when `historyIndex < history.length - 1`;
increment the cursor, emit `urlChange`, then run the load simulation. -/
def goForward (parse : String → Option String) (s : CPState) :
    CPState × List Msg :=
  if s.historyIndex < (s.history.length : Int) - 1 then
    let i := s.historyIndex + 1
    let url := s.history.getD i.toNat ""
    let s' : CPState := { s with historyIndex := i, currentUrl := url }
    (s', { type := "urlChange", tabId := s.tabId, url := url } ::
         simulatePageLoad parse s.tabId url)
  else (s, [])

/-- `refresh()`: replay the load simulation for a truthy `currentUrl`,
history untouched. -/
def refresh (parse : String → Option String) (s : CPState) :
    CPState × List Msg :=
  if s.currentUrl = "" then (s, [])
  else (s, simulatePageLoad parse s.tabId s.currentUrl)

/-- `handleMainProcessMessage`: the worker's `switch (message.type)`.
The `initialize` arm records the tab and replies `ready`; a tag outside
the six command cases falls through the switch untouched. -/
def handleMainProcessMessage (parse : String → Option String) (s : CPState)
    (m : Msg) : CPState × List Msg :=
  if m.type = "initialize" then
    let s' : CPState := { s with tabId := m.tabId }
    (s', [{ type := "ready", tabId := s'.tabId }])
  else if m.type = "navigate" then navigate parse s m.url
  else if m.type = "back" then goBack parse s
  else if m.type = "forward" then goForward parse s
  else if m.type = "refresh" then refresh parse s
  else if m.type = "shutdown" then (s, [])
  else (s, [])

/-- Run the worker over a command list, collecting the emitted events in
order (per-tab FIFO channel). -/
def runWorker (parse : String → Option String) (s : CPState) :
    List Msg → CPState × List Msg
  | [] => (s, [])
  | m :: rest =>
    let r1 := handleMainProcessMessage parse s m
    let r2 := runWorker parse r1.1 rest
    (r2.1, r1.2 ++ r2.2)

/-- Model of the host WHATWG `URL` constructor's hostname behaviour on
the families of inputs exercised here: `http(s)` URLs yield the
authority segment as hostname and the constructor throws when it is
empty (special schemes require a host); `file://` and `mailto:` URLs
parse with a possibly empty hostname (`new URL("mailto:a").hostname` is
`""`); a scheme-less string throws. -/
def urlHost (s : String) : Option String :=
  let cs := s.data
  if List.isPrefixOf "https://".data cs then
    let h := String.mk ((cs.drop 8).takeWhile (fun c => !(c == '/')))
    if h = "" then none else some h
  else if List.isPrefixOf "http://".data cs then
    let h := String.mk ((cs.drop 7).takeWhile (fun c => !(c == '/')))
    if h = "" then none else some h
  else if List.isPrefixOf "file://".data cs then
    some (String.mk ((cs.drop 7).takeWhile (fun c => !(c == '/'))))
  else if List.isPrefixOf "mailto:".data cs then some ""
  else none

/-! ## Coordinator (`MainProcess`)

Handler invocation is modelled observationally: the registry of
`onContentProcessMessage` handlers is the list of registered type
strings (JS `Map.set` keyed by type, later registration replacing the
earlier — presence is all that is observable here), and each function
returns the list of messages passed to an invoked handler. -/

/-- `TabInfo { id, title, url, contentProcessId? }`; absent
`contentProcessId` is `""` (the source tests it for truthiness). -/
structure TabInfo where
  id : String
  title : String
  url : String
  contentProcessId : String := ""
deriving Repr, DecidableEq

inductive PStatus where
  | initializing
  | ready
  | crashed
  | terminated
deriving Repr, DecidableEq

/-- `ProcessInfo { id, status, tabId?, worker? }`; `hasWorker` models
the presence of the `worker` field, `tabId = ""` its absence. -/
structure ProcessInfo where
  id : String
  status : PStatus
  tabId : String := ""
  hasWorker : Bool := false
deriving Repr, DecidableEq

/-- The `MainProcess` fields: `tabs`, `processes`, `messageHandlers`. -/
structure MPState where
  tabs : List (String × TabInfo) := []
  processes : List (String × ProcessInfo) := []
  handlers : List String := []
deriving Repr, DecidableEq

def mpEmpty : MPState := {}

/-- `sendToContentProcess`: looks the process up in the registry and
posts only when an entry with a worker is present (the messages actually
posted to the worker are returned). -/
def sendToContentProcess (s : MPState) (processId : String) (m : Msg) :
    List Msg :=
  match mlookup processId s.processes with
  | none => []
  | some p => if p.hasWorker then [m] else []

/-- `createContentProcess(tabId)`: a registry entry born `initializing`;
on a successful worker spawn (`spawnOk`) the entry is set `ready` with a
worker and an `initialize` command is passed to `sendToContentProcess` —
against the registry as it stands before `processes.set`, exactly as the
source orders those statements; on a spawn failure the entry is set
`crashed`.  `processId` stands for the generated
`process-${Date.now()}-...` name.  Returns (state, posted commands). -/
def createContentProcess (s : MPState) (tabId processId : String)
    (spawnOk : Bool) : MPState × List Msg :=
  let p0 : ProcessInfo :=
    { id := processId, status := .initializing, tabId := tabId }
  if spawnOk then
    let p1 : ProcessInfo := { p0 with hasWorker := true, status := .ready }
    let sent := sendToContentProcess s processId
      { type := "initialize", tabId := tabId }
    ({ s with processes := mset processId p1 s.processes }, sent)
  else
    ({ s with processes := mset processId { p0 with status := .crashed }
                             s.processes }, [])

/-- `createTab(tabId, url)`: insert `{ id, title: 'New Tab', url }`,
spawn the content process, then link `tab.contentProcessId` (a mutation
of the object held in the map, hence a re-insert here).  Returns
(state, the returned `TabInfo`, posted commands). -/
def createTab (s : MPState) (tabId url processId : String)
    (spawnOk : Bool) : MPState × TabInfo × List Msg :=
  let tab0 : TabInfo := { id := tabId, title := "New Tab", url := url }
  let s1 : MPState := { s with tabs := mset tabId tab0 s.tabs }
  let r := createContentProcess s1 tabId processId spawnOk
  let tab1 : TabInfo := { tab0 with contentProcessId := processId }
  ({ r.1 with tabs := mset tabId tab1 r.1.tabs }, tab1, r.2)

/-- `navigateTab(tabId, url)`: warn-and-return on an unknown tab;
otherwise set `tab.url` eagerly and post a `navigate` command to the
owning process. -/
def navigateTab (s : MPState) (tabId url : String) : MPState × List Msg :=
  match mlookup tabId s.tabs with
  | none => (s, [])
  | some tab =>
    let tab' : TabInfo := { tab with url := url }
    let s' : MPState := { s with tabs := mset tabId tab' s.tabs }
    if tab'.contentProcessId = "" then (s', [])
    else (s', sendToContentProcess s' tab'.contentProcessId
            { type := "navigate", url := url, tabId := tabId })

/-- `terminateContentProcess`: terminate the worker, mark the entry
`terminated` and delete it (the mark is on the object deleted in the
next statement, so the registry effect is the deletion). -/
def terminateContentProcess (s : MPState) (processId : String) : MPState :=
  match mlookup processId s.processes with
  | none => s
  | some _ => { s with processes := mdel processId s.processes }

/-- `closeTab(tabId)`: no-op on an unknown tab; otherwise terminate the
owning process and delete the tab entry. -/
def closeTab (s : MPState) (tabId : String) : MPState :=
  match mlookup tabId s.tabs with
  | none => s
  | some tab =>
    let s' := if tab.contentProcessId = "" then s
              else terminateContentProcess s tab.contentProcessId
    { s' with tabs := mdel tabId s'.tabs }

/-- `handleProcessCrash(processId)` (the target of `worker.onerror`):
mark the registry entry `crashed`, then invoke the `processCrash`
handler, when registered and the entry has a truthy `tabId`, with a
synthesized `processCrash` message. -/
def handleProcessCrash (s : MPState) (processId : String) :
    MPState × List Msg :=
  match mlookup processId s.processes with
  | none => (s, [])
  | some p =>
    let s' : MPState :=
      { s with processes := mset processId { p with status := .crashed }
                              s.processes }
    if s.handlers.contains "processCrash" ∧ p.tabId ≠ "" then
      (s', [{ type := "processCrash", tabId := p.tabId,
              processId := processId }])
    else (s', [])

/-- `handleContentProcessMessage(processId, message)`: guard clauses
drop a message from an unregistered process, a process without a tab
id, or a tab id without a tab; then the `switch (message.type)` mutates
the tab on truthy `titleChange`/`urlChange` payloads (`ready` and
`loadComplete` only log); finally the message — whatever its type — is
forwarded to a handler registered under exactly `message.type`. -/
def handleContentProcessMessage (s : MPState) (processId : String)
    (m : Msg) : MPState × List Msg :=
  match mlookup processId s.processes with
  | none => (s, [])
  | some p =>
    if p.tabId = "" then (s, [])
    else
      match mlookup p.tabId s.tabs with
      | none => (s, [])
      | some tab =>
        let s' : MPState :=
          if m.type = "titleChange" then
            if m.title = "" then s
            else { s with tabs := mset p.tabId { tab with title := m.title }
                                     s.tabs }
          else if m.type = "urlChange" then
            if m.url = "" then s
            else { s with tabs := mset p.tabId { tab with url := m.url }
                                     s.tabs }
          else s
        (s', if s.handlers.contains m.type then [m] else [])

/-- `onContentProcessMessage(type, handler)`: register (or replace) the
handler stored under `type`. -/
def onContentProcessMessage (s : MPState) (type : String) : MPState :=
  if s.handlers.contains type then s
  else { s with handlers := type :: s.handlers }

/-- `getTab(tabId)`. -/
def getTab (s : MPState) (tabId : String) : Option TabInfo :=
  mlookup tabId s.tabs

/-- `getProcessInfo(processId)`. -/
def getProcessInfo (s : MPState) (processId : String) : Option ProcessInfo :=
  mlookup processId s.processes

/-- `sendNavigationCommand(tabId, 'back'|'forward'|'refresh')`. -/
def sendNavigationCommand (s : MPState) (tabId command : String) :
    List Msg :=
  match mlookup tabId s.tabs with
  | none => []
  | some tab =>
    if tab.contentProcessId = "" then []
    else sendToContentProcess s tab.contentProcessId
      { type := command, tabId := tabId }

/-- Feed a list of worker events through
`handleContentProcessMessage`, threading the state and collecting the
handler invocations. -/
def foldEvents (s : MPState) (processId : String) :
    List Msg → MPState × List Msg
  | [] => (s, [])
  | m :: rest =>
    let r1 := handleContentProcessMessage s processId m
    let r2 := foldEvents r1.1 processId rest
    (r2.1, r1.2 ++ r2.2)

/-- Whether some registry entry still references tab `t`. -/
def hasProcFor (s : MPState) (t : String) : Bool :=
  s.processes.any (fun kv => kv.2.tabId == t)

/-- Registry/tab-map consistency at tab `t`: every registry entry
referencing `t` is keyed by the (truthy) `contentProcessId` the `t` tab
links.  This holds of every state the coordinator's API builds:
`createTab` links each spawned process id to its tab. -/
def procsLinked (s : MPState) (t : String) : Bool :=
  s.processes.all (fun kv =>
    kv.2.tabId != t ||
      match mlookup t s.tabs with
      | some tab => tab.contentProcessId != "" &&
          tab.contentProcessId == kv.1
      | none => false)

/-! ## Scenario drivers and sample states -/

/-- The navigate/navigate/back scenario of §8.2 driven end to end:
`createTab`, two `navigateTab` calls, `sendNavigationCommand 'back'`,
the worker consuming the posted commands, the coordinator folding the
resulting events.  (Per `createContentProcess`, the `initialize`
command is passed to `sendToContentProcess` before the registry insert
and so is never posted; the worker therefore starts uninitialized,
which the routing by `processId` makes unobservable here.)  Returns the
final coordinator and worker states. -/
def c2Run (parse : String → Option String) (u0 u1 u2 : String) :
    MPState × CPState :=
  let r0 := createTab mpEmpty "t1" u0 "p1" true
  let n1 := navigateTab r0.1 "t1" u1
  let n2 := navigateTab n1.1 "t1" u2
  let nb := sendNavigationCommand n2.1 "t1" "back"
  let w := runWorker parse {} (n1.2 ++ n2.2 ++ nb)
  let f := foldEvents n2.1 "p1" w.2
  (f.1, w.1)

/-- A live tab linked to its process, as `createTab` leaves them. -/
def tabT1 : TabInfo :=
  { id := "t1", title := "New Tab", url := "", contentProcessId := "p1" }

def procP1 : ProcessInfo :=
  { id := "p1", status := .ready, tabId := "t1", hasWorker := true }

def sLive : MPState :=
  { tabs := [("t1", tabT1)], processes := [("p1", procP1)] }

/-- `sLive` with a handler registered under the unknown type `bogus`. -/
def sLiveBogus : MPState := { sLive with handlers := ["bogus"] }

/-- `sLive` with a `processCrash` subscriber registered. -/
def sCrashSub : MPState := { sLive with handlers := ["processCrash"] }

/-- A registry entry whose owning tab is gone (already closed). -/
def sStale : MPState := { processes := [("p1", procP1)] }

/-- A worker mid-history: both back and forward are possible. -/
def cpMid : CPState :=
  { tabId := "t", currentUrl := "b", history := ["a", "b", "c"],
    historyIndex := 1 }

/-- A worker with the history cursor at index 0. -/
def cpAtStart : CPState :=
  { tabId := "t", currentUrl := "a", history := ["a", "b"],
    historyIndex := 0 }

/-- A worker with the history cursor at the last index. -/
def cpAtEnd : CPState :=
  { tabId := "t", currentUrl := "b", history := ["a", "b"],
    historyIndex := 1 }

/-! ## Association-list lemmas -/

@[simp] theorem mlookup_nil {α : Type} (k : String) :
    mlookup (α := α) k [] = none := rfl

@[simp] theorem mlookup_mset_self {α : Type} (k : String) (v : α)
    (m : List (String × α)) : mlookup k (mset k v m) = some v := by
  simp [mset, mlookup]

@[simp] theorem mlookup_mdel_self {α : Type} (k : String)
    (m : List (String × α)) : mlookup k (mdel k m) = none := by
  induction m with
  | nil => rfl
  | cons hd tl ih =>
    by_cases hk : hd.1 = k
    · simpa [mdel, hk] using ih
    · simpa [mdel, mlookup, hk] using ih

theorem mem_mdel {α : Type} {k : String} {kv : String × α}
    {m : List (String × α)} (h : kv ∈ mdel k m) : kv ∈ m ∧ kv.1 ≠ k := by
  induction m with
  | nil => cases h
  | cons hd tl ih =>
    by_cases hk : hd.1 = k
    · simp only [mdel, if_pos hk] at h
      exact ⟨List.mem_cons_of_mem _ (ih h).1, (ih h).2⟩
    · simp only [mdel, if_neg hk] at h
      cases h with
      | head => exact ⟨List.mem_cons_self _ _, hk⟩
      | tail _ h' => exact ⟨List.mem_cons_of_mem _ (ih h').1, (ih h').2⟩

theorem mlookup_ne_none_of_mem {α : Type} {k : String} {v : α}
    {m : List (String × α)} (h : (k, v) ∈ m) : mlookup k m ≠ none := by
  induction m with
  | nil => cases h
  | cons hd tl ih =>
    cases h with
    | head => simp [mlookup]
    | tail _ h' =>
      by_cases hk : hd.1 = k
      · simp [mlookup, hk]
      · simpa [mlookup, hk] using ih h'

/-! ## Behaviour lemmas shared between claims -/

/-- The title the worker derives is never the empty string: either a
nonempty hostname or the sentinel. -/
theorem extractTitleFromUrl_ne_empty
    (parse : String → Option String) (url : String) :
    extractTitleFromUrl parse url ≠ "" := by
  unfold extractTitleFromUrl
  cases parse url with
  | none => simp
  | some h =>
    by_cases hh : h = "" <;> simp [hh]

/-- `terminateContentProcess` never touches the tab map. -/
theorem terminate_tabs_eq (s : MPState) (processId : String) :
    (terminateContentProcess s processId).tabs = s.tabs := by
  unfold terminateContentProcess
  cases mlookup processId s.processes <;> rfl

/-- After `closeTab t`, the tab `t` is gone. -/
theorem getTab_closeTab_self (s : MPState) (t : String) :
    getTab (closeTab s t) t = none := by
  unfold closeTab getTab
  cases h : mlookup t s.tabs with
  | none => simpa using h
  | some tab => simp

/-- `closeTab` on an absent tab id returns at once, unchanged. -/
theorem closeTab_absent (s : MPState) (t : String)
    (h : mlookup t s.tabs = none) : closeTab s t = s := by
  unfold closeTab
  rw [h]

/-! ## Claims -/

/-- C5: for every `createTab(id, url)`, an immediately following
`getTab(id)` — before any asynchronous event is processed — returns a
tab whose `title` is the sentinel `"New Tab"` and whose `url` is the
`url` argument (and which is already linked to the spawned process). -/
theorem createTab_getTab_immediate (s : MPState)
    (tabId url processId : String) (spawnOk : Bool) :
    getTab (createTab s tabId url processId spawnOk).1 tabId =
      some { id := tabId, title := "New Tab", url := url,
             contentProcessId := processId } := by
  cases spawnOk <;> simp [createTab, createContentProcess, getTab]

/-- C9: a `back()` with the history cursor at index 0 emits no events
and leaves the unit state unchanged, and so does a `forward()` with the
cursor at the last history index. -/
theorem back_forward_boundary_noop (parse : String → Option String)
    (s : CPState) :
    (s.historyIndex = 0 → goBack parse s = (s, [])) ∧
    (s.historyIndex = (s.history.length : Int) - 1 →
      goForward parse s = (s, [])) := by
  constructor
  · intro h
    simp [goBack, h]
  · intro h
    simp [goForward, h]

theorem back_forward_boundary_noop_witness :
    goBack urlHost cpAtStart = (cpAtStart, []) ∧
    goForward urlHost cpAtEnd = (cpAtEnd, []) :=
  ⟨(back_forward_boundary_noop urlHost cpAtStart).1 (by decide),
   (back_forward_boundary_noop urlHost cpAtEnd).2 (by decide)⟩

/-- C10: an event from a process with no registry entry, from an entry
without an owning `tabId`, or whose owning `tabId` has no tab, is
dropped whole: the state is untouched and no handler is invoked. -/
theorem stale_event_dropped (s : MPState) (processId : String) (m : Msg)
    (h : mlookup processId s.processes = none ∨
      ∃ p, mlookup processId s.processes = some p ∧
        (p.tabId = "" ∨ mlookup p.tabId s.tabs = none)) :
    handleContentProcessMessage s processId m = (s, []) := by
  unfold handleContentProcessMessage
  rcases h with h | ⟨p, hp, h2 | h2⟩
  · simp [h]
  · simp [hp, h2]
  · rw [hp]
    by_cases ht : p.tabId = ""
    · simp [ht]
    · simp [ht, h2]

theorem stale_event_dropped_witness :
    handleContentProcessMessage sStale "p1"
      { type := "urlChange", url := "https://a.com" } = (sStale, []) :=
  stale_event_dropped sStale "p1" _
    (Or.inr ⟨procP1, by decide, Or.inr (by decide)⟩)

/-- C1: a worker error signal on a registered process with an owning
tab and a registered `processCrash` subscriber marks the registry entry
`crashed`, invokes the subscriber with exactly one `processCrash`
message carrying the owning `tabId`, spawns nothing (the registry is
the old one with only that entry's status changed, the handler set
untouched), leaves the tab map untouched, and the tab stays retrievable
until an explicit `closeTab` removes it. -/
theorem process_crash_single_event (s : MPState) (processId t : String)
    (p : ProcessInfo) (h1 : getProcessInfo s processId = some p)
    (h2 : p.tabId = t) (h3 : t ≠ "")
    (h4 : s.handlers.contains "processCrash" = true) :
    (handleProcessCrash s processId).2 =
      [{ type := "processCrash", tabId := t, processId := processId }] ∧
    (handleProcessCrash s processId).1.processes =
      mset processId { p with status := .crashed } s.processes ∧
    (handleProcessCrash s processId).1.tabs = s.tabs ∧
    (handleProcessCrash s processId).1.handlers = s.handlers ∧
    getTab (handleProcessCrash s processId).1 t = getTab s t ∧
    getTab (closeTab (handleProcessCrash s processId).1 t) t = none := by
  have h1' : mlookup processId s.processes = some p := h1
  have hmem : "processCrash" ∈ s.handlers := by
    simpa using h4
  refine ⟨?_, ?_, ?_, ?_, ?_, getTab_closeTab_self _ t⟩ <;>
    simp [handleProcessCrash, h1', h2, hmem, h3, getTab]

theorem process_crash_single_event_witness :
    (handleProcessCrash sCrashSub "p1").2 =
      [{ type := "processCrash", tabId := "t1", processId := "p1" }] ∧
    (handleProcessCrash sCrashSub "p1").1.processes =
      mset "p1" { procP1 with status := .crashed } sCrashSub.processes ∧
    (handleProcessCrash sCrashSub "p1").1.tabs = sCrashSub.tabs ∧
    (handleProcessCrash sCrashSub "p1").1.handlers = sCrashSub.handlers ∧
    getTab (handleProcessCrash sCrashSub "p1").1 "t1" =
      getTab sCrashSub "t1" ∧
    getTab (closeTab (handleProcessCrash sCrashSub "p1").1 "t1") "t1" =
      none :=
  process_crash_single_event sCrashSub "p1" "t1" procP1
    (by decide) (by decide) (by decide) (by decide)
/-- C4, counterexample: after `createTab` on a fresh coordinator the
registry entry is already `ready` (createContentProcess sets it so
synchronously, before `createTab` returns), not `initializing`; and a
subsequent `ready` event leaves the state — in particular the status —
exactly as it was, so no `initializing → ready` transition happens at
event-receipt time. -/
theorem createTab_returns_ready_not_initializing :
    (getProcessInfo (createTab mpEmpty "t1" "" "p1" true).1 "p1").map
      ProcessInfo.status = some PStatus.ready ∧
    some PStatus.ready ≠ some PStatus.initializing ∧
    (handleContentProcessMessage (createTab mpEmpty "t1" "" "p1" true).1
      "p1" { type := "ready", tabId := "t1" }).1 =
      (createTab mpEmpty "t1" "" "p1" true).1 := by decide

/-- C4, amended: the registry entry is created `initializing`, but
`createContentProcess` sets it `ready` synchronously on a successful
spawn (`crashed` on a failed one), so by the time `createTab` returns
the status is already `ready` resp. `crashed`; the unit's later `ready`
event is only logged and leaves the registry unchanged. -/
theorem createTab_status_lifecycle (s s2 : MPState)
    (tabId url processId pid2 : String) (m : Msg)
    (hm : m.type = "ready") :
    getProcessInfo (createTab s tabId url processId true).1 processId =
      some { id := processId, status := .ready, tabId := tabId,
             hasWorker := true } ∧
    getProcessInfo (createTab s tabId url processId false).1 processId =
      some { id := processId, status := .crashed, tabId := tabId } ∧
    (handleContentProcessMessage s2 pid2 m).1.processes = s2.processes := by
  refine ⟨?_, ?_, ?_⟩
  · simp [createTab, createContentProcess, getProcessInfo]
  · simp [createTab, createContentProcess, getProcessInfo]
  · unfold handleContentProcessMessage
    cases h : mlookup pid2 s2.processes with
    | none => rfl
    | some p =>
      by_cases ht : p.tabId = ""
      · simp [ht]
      · cases h2 : mlookup p.tabId s2.tabs with
        | none => simp [ht, h2]
        | some tab => simp [ht, h2, hm]

theorem createTab_status_lifecycle_witness :
    getProcessInfo (createTab mpEmpty "t2" "u" "p2" true).1 "p2" =
      some { id := "p2", status := .ready, tabId := "t2",
             hasWorker := true } ∧
    getProcessInfo (createTab mpEmpty "t2" "u" "p2" false).1 "p2" =
      some { id := "p2", status := .crashed, tabId := "t2" } ∧
    (handleContentProcessMessage sLive "p1"
      { type := "ready", tabId := "t1" }).1.processes = sLive.processes :=
  createTab_status_lifecycle mpEmpty sLive "t2" "u" "p2" "p1"
    { type := "ready", tabId := "t1" } rfl

/-- C3, counterexample: a non-boundary `goBack` emits `urlChange`,
`titleChange`, `urlChange`, `loadComplete` — and no `loadStart` at all,
where the claim requires one between the leading `urlChange` and the
title/url pair. -/
theorem goBack_missing_loadStart :
    (goBack urlHost cpAtEnd).2 =
      [{ type := "urlChange", tabId := "t", url := "a" },
       { type := "titleChange", tabId := "t", title := "New Tab" },
       { type := "urlChange", tabId := "t", url := "a" },
       { type := "loadComplete", tabId := "t", url := "a" }] ∧
    ((goBack urlHost cpAtEnd).2.all (fun m => !(m.type == "loadStart")))
      = true := by decide

/-- C3, amended: off the boundary, `goBack`/`goForward` move the cursor
by one and emit `urlChange` for the new current URL followed by the
load-simulation sequence shared with `navigate` (`titleChange`,
`urlChange`, `loadComplete`, via the same `simulatePageLoad` and the
unchanged title rule) — but with no `loadStart`: that event is emitted
by `navigate` itself, which `simulatePageLoad` does not replay. -/
theorem back_forward_event_sequence (parse : String → Option String)
    (s : CPState) :
    (0 < s.historyIndex →
      (goBack parse s).1.historyIndex = s.historyIndex - 1 ∧
      (goBack parse s).2 =
        { type := "urlChange", tabId := s.tabId,
          url := s.history.getD (s.historyIndex - 1).toNat "" } ::
          simulatePageLoad parse s.tabId
            (s.history.getD (s.historyIndex - 1).toNat "") ∧
      (goBack parse s).2.map Msg.type =
        ["urlChange", "titleChange", "urlChange", "loadComplete"]) ∧
    (s.historyIndex < (s.history.length : Int) - 1 →
      (goForward parse s).1.historyIndex = s.historyIndex + 1 ∧
      (goForward parse s).2 =
        { type := "urlChange", tabId := s.tabId,
          url := s.history.getD (s.historyIndex + 1).toNat "" } ::
          simulatePageLoad parse s.tabId
            (s.history.getD (s.historyIndex + 1).toNat "") ∧
      (goForward parse s).2.map Msg.type =
        ["urlChange", "titleChange", "urlChange", "loadComplete"]) := by
  constructor <;> intro h <;> refine ⟨?_, ?_, ?_⟩ <;>
    simp [goBack, goForward, h, simulatePageLoad]

theorem back_forward_event_sequence_witness :
    ((goBack urlHost cpMid).1.historyIndex = cpMid.historyIndex - 1 ∧
      (goBack urlHost cpMid).2 =
        { type := "urlChange", tabId := cpMid.tabId,
          url := cpMid.history.getD (cpMid.historyIndex - 1).toNat "" } ::
          simulatePageLoad urlHost cpMid.tabId
            (cpMid.history.getD (cpMid.historyIndex - 1).toNat "") ∧
      (goBack urlHost cpMid).2.map Msg.type =
        ["urlChange", "titleChange", "urlChange", "loadComplete"]) ∧
    ((goForward urlHost cpMid).1.historyIndex = cpMid.historyIndex + 1 ∧
      (goForward urlHost cpMid).2 =
        { type := "urlChange", tabId := cpMid.tabId,
          url := cpMid.history.getD (cpMid.historyIndex + 1).toNat "" } ::
          simulatePageLoad urlHost cpMid.tabId
            (cpMid.history.getD (cpMid.historyIndex + 1).toNat "") ∧
      (goForward urlHost cpMid).2.map Msg.type =
        ["urlChange", "titleChange", "urlChange", "loadComplete"]) :=
  ⟨(back_forward_event_sequence urlHost cpMid).1 (by decide),
   (back_forward_event_sequence urlHost cpMid).2 (by decide)⟩

/-- C6, counterexample: `mailto:user@example.com` parses successfully
(the host `URL` constructor accepts non-special schemes) with hostname
`""`, yet the `titleChange` event of a navigation to it carries the
sentinel `"New Tab"`, not the (empty) hostname component — the
`|| 'New Tab'` fallback also fires on parseable URLs. -/
theorem parse_ok_empty_hostname_gives_sentinel :
    urlHost "mailto:user@example.com" = some "" ∧
    (navigate urlHost { tabId := "t" } "mailto:user@example.com").2.get? 1
      = some { type := "titleChange", tabId := "t", title := "New Tab" } ∧
    ("New Tab" : String) ≠ "" := by decide

/-- C6, amended: title derivation is a deterministic function of the
URL string: a successfully parsed URL with a nonempty hostname yields
the hostname; an unparsable string — and equally a parseable one whose
hostname is empty, through the `|| 'New Tab'` fallback — yields the
fixed sentinel `"New Tab"`; `navigate`'s `titleChange` event carries
exactly this derived title. -/
theorem title_derivation (parse : String → Option String)
    (url hn : String) (s : CPState) (hu : url ≠ "") :
    (parse url = some hn → hn ≠ "" →
      extractTitleFromUrl parse url = hn) ∧
    (parse url = none → extractTitleFromUrl parse url = "New Tab") ∧
    (parse url = some "" → extractTitleFromUrl parse url = "New Tab") ∧
    (navigate parse s url).2.get? 1 =
      some { type := "titleChange", tabId := s.tabId,
             title := extractTitleFromUrl parse url } := by
  refine ⟨?_, ?_, ?_, ?_⟩
  · intro hp hh
    simp [extractTitleFromUrl, hp, hh]
  · intro hp
    simp [extractTitleFromUrl, hp]
  · intro hp
    simp [extractTitleFromUrl, hp]
  · simp [navigate, hu, simulatePageLoad]

theorem title_derivation_witness :
    extractTitleFromUrl urlHost "https://example.com/path" =
      "example.com" ∧
    extractTitleFromUrl urlHost "not a url" = "New Tab" ∧
    (navigate urlHost cpMid "https://example.com/path").2.get? 1 =
      some { type := "titleChange", tabId := "t",
             title := "example.com" } := by
  refine ⟨?_, ?_, ?_⟩
  · exact (title_derivation urlHost "https://example.com/path"
      "example.com" cpMid (by decide)).1 (by decide) (by decide)
  · exact (title_derivation urlHost "not a url" "" cpMid
      (by decide)).2.1 (by decide)
  · have h4 := (title_derivation urlHost "https://example.com/path"
      "example.com" cpMid (by decide)).2.2.2
    rw [show extractTitleFromUrl urlHost "https://example.com/path" =
      "example.com" from by decide] at h4
    exact h4

/-- C8, counterexample: the coordinator forwards every message keyed by
its raw `type` string, so a message with the out-of-union tag `bogus`
does invoke a subscriber handler registered under `bogus` — the claim's
"without invoking any subscriber handler" fails. -/
theorem unknown_type_forwarded_to_handler :
    ¬ ("bogus" ∈ commandTypes) ∧ ¬ ("bogus" ∈ eventTypes) ∧
    (handleContentProcessMessage sLiveBogus "p1" { type := "bogus" }).2 =
      [{ type := "bogus" }] := by decide

/-- C8, amended: a message whose tag lies outside both closed unions
mutates no state and propagates no error in either receiver; the worker
invokes nothing and emits nothing; the coordinator, whose forwarding
step is keyed by the raw type string, invokes at most one handler — the
one registered under exactly that unknown tag, with the message itself
— and invokes none when no handler is registered under it. -/
theorem unknown_type_discarded (parse : String → Option String)
    (s : CPState) (s2 : MPState) (pid : String) (m : Msg)
    (h1 : ¬ m.type ∈ commandTypes) (h2 : ¬ m.type ∈ eventTypes) :
    handleMainProcessMessage parse s m = (s, []) ∧
    (handleContentProcessMessage s2 pid m).1 = s2 ∧
    (s2.handlers.contains m.type = false →
      (handleContentProcessMessage s2 pid m).2 = []) ∧
    ((handleContentProcessMessage s2 pid m).2 = [] ∨
      (handleContentProcessMessage s2 pid m).2 = [m]) := by
  obtain ⟨hc1, hc2, hc3, hc4, hc5, hc6⟩ :
      m.type ≠ "initialize" ∧ m.type ≠ "navigate" ∧ m.type ≠ "back" ∧
        m.type ≠ "forward" ∧ m.type ≠ "refresh" ∧ m.type ≠ "shutdown" := by
    simpa [commandTypes, not_or] using h1
  obtain ⟨he1, he2, he3, he4, he5, he6⟩ :
      m.type ≠ "ready" ∧ m.type ≠ "titleChange" ∧ m.type ≠ "urlChange" ∧
        m.type ≠ "loadStart" ∧ m.type ≠ "loadComplete" ∧
        m.type ≠ "processCrash" := by
    simpa [eventTypes, not_or] using h2
  have hstep : (handleContentProcessMessage s2 pid m).1 = s2 ∧
      ((handleContentProcessMessage s2 pid m).2 = [] ∨
        (s2.handlers.contains m.type = true ∧
          (handleContentProcessMessage s2 pid m).2 = [m])) := by
    unfold handleContentProcessMessage
    cases hp : mlookup pid s2.processes with
    | none => exact ⟨rfl, Or.inl rfl⟩
    | some p =>
      by_cases ht : p.tabId = ""
      · simp [ht]
      · cases htab : mlookup p.tabId s2.tabs with
        | none => simp [ht, htab]
        | some tab =>
          by_cases hcont : s2.handlers.contains m.type = true
          · simp [ht, htab, he2, he3, hcont]
            exact (em _).symm
          · simp [ht, htab, he2, he3, hcont]
            exact (em _).symm
  refine ⟨?_, hstep.1, ?_, ?_⟩
  · simp [handleMainProcessMessage, hc1, hc2, hc3, hc4, hc5, hc6]
  · intro hfalse
    rcases hstep.2 with hh | ⟨hc, _⟩
    · exact hh
    · rw [hfalse] at hc
      cases hc
  · rcases hstep.2 with hh | ⟨_, hh⟩
    · exact Or.inl hh
    · exact Or.inr hh

theorem unknown_type_discarded_witness :
    handleMainProcessMessage urlHost cpMid { type := "bogus" } =
      (cpMid, []) ∧
    (handleContentProcessMessage sLive "p1" { type := "bogus" }).1 =
      sLive ∧
    (handleContentProcessMessage sLive "p1" { type := "bogus" }).2 = [] ∧
    ((handleContentProcessMessage sLive "p1" { type := "bogus" }).2 = [] ∨
      (handleContentProcessMessage sLive "p1" { type := "bogus" }).2 =
        [{ type := "bogus" }]) := by
  have h := unknown_type_discarded urlHost cpMid sLive "p1"
    { type := "bogus" } (by decide) (by decide)
  exact ⟨h.1, h.2.1, h.2.2.1 (by decide), h.2.2.2⟩
/-- C7: `closeTab` is idempotent — on a state whose registry is
consistent at `t` (every entry referencing `t` is the one the tab
links, which `createTab` guarantees), the second of two `closeTab t`
calls is a no-op on the already-empty state, no error is raised (the
function is total), and afterwards neither a tab entry nor a registry
entry for that tab remains. -/
theorem closeTab_idempotent (s : MPState) (t : String)
    (h : procsLinked s t = true) :
    closeTab (closeTab s t) t = closeTab s t ∧
    getTab (closeTab s t) t = none ∧
    hasProcFor (closeTab s t) t = false := by
  have habsent : mlookup t (closeTab s t).tabs = none :=
    getTab_closeTab_self s t
  refine ⟨closeTab_absent _ t habsent, getTab_closeTab_self s t, ?_⟩
  cases h1 : mlookup t s.tabs with
  | none =>
    have hall : ∀ kv ∈ s.processes, ¬ kv.2.tabId = t := by
      intro kv hkv
      have h2 := List.all_eq_true.mp h kv hkv
      rw [h1] at h2
      simpa using h2
    rw [closeTab_absent s t h1]
    refine List.any_eq_false.mpr ?_
    intro kv hkv
    simpa using hall kv hkv
  | some tab =>
    by_cases hc : tab.contentProcessId = ""
    · have hall : ∀ kv ∈ s.processes, ¬ kv.2.tabId = t := by
        intro kv hkv
        have h2 := List.all_eq_true.mp h kv hkv
        rw [h1] at h2
        simpa [hc] using h2
      unfold closeTab
      rw [h1]
      simp only [hc, if_pos rfl, hasProcFor]
      refine List.any_eq_false.mpr ?_
      intro kv hkv
      simpa using hall kv hkv
    · have hall : ∀ kv ∈ s.processes, kv.2.tabId = t →
          kv.1 = tab.contentProcessId := by
        intro kv hkv hkt
        have h2 := List.all_eq_true.mp h kv hkv
        rw [h1] at h2
        simp [hkt] at h2
        exact h2.2.symm
      unfold closeTab
      rw [h1]
      simp only [if_neg hc]
      unfold terminateContentProcess
      cases h3 : mlookup tab.contentProcessId s.processes with
      | none =>
        refine List.any_eq_false.mpr ?_
        intro kv hkv
        simp only [hasProcFor] at hkv ⊢
        simp only [beq_iff_eq, Bool.not_eq_true, decide_eq_false_iff_not]
        intro hkt
        have hkey := hall kv hkv hkt
        have : (tab.contentProcessId, kv.2) ∈ s.processes := by
          rw [← hkey]
          exact hkv
        exact mlookup_ne_none_of_mem this h3
      | some p =>
        refine List.any_eq_false.mpr ?_
        intro kv hkv
        obtain ⟨hmem, hne⟩ := mem_mdel hkv
        simp only [beq_iff_eq, Bool.not_eq_true, decide_eq_false_iff_not]
        intro hkt
        exact hne (hall kv hmem hkt)

theorem closeTab_idempotent_witness :
    closeTab (closeTab (createTab mpEmpty "t1" "u" "p1" true).1 "t1") "t1" =
      closeTab (createTab mpEmpty "t1" "u" "p1" true).1 "t1" ∧
    getTab (closeTab (createTab mpEmpty "t1" "u" "p1" true).1 "t1") "t1" =
      none ∧
    hasProcFor (closeTab (createTab mpEmpty "t1" "u" "p1" true).1 "t1")
      "t1" = false :=
  closeTab_idempotent (createTab mpEmpty "t1" "u" "p1" true).1 "t1"
    (by decide)
/-- C2, counterexample: the claim quantifies over every pair of URLs,
but the tab's `url` field may hold the empty string (`navigateTab` sets
it eagerly to whatever it is given, and the worker's `navigate` treats
a falsy url as a no-op that pushes nothing).  With u1 = `""` and u2 =
`"https://a.com"`, the sequence navigate(u1), navigate(u2), back()
settles with the tab's url equal to u2, not u1: back() is a no-op
because the empty navigation left the cursor at index 0. -/
theorem navigate_back_empty_url :
    (getTab (c2Run urlHost "" "" "https://a.com").1 "t1").map TabInfo.url
      = some "https://a.com" ∧
    some ("https://a.com" : String) ≠ some "" := by decide

/-- C2, amended: for every tab and every pair of URLs u1, u2 with u1
nonempty, after the command sequence navigate(u1), navigate(u2), back()
— driven through `navigateTab`/`sendNavigationCommand`, consumed by the
worker, with all resulting events folded by the coordinator — the tab's
`url` field equals u1 and the unit's history cursor points at u1. -/
theorem navigate_navigate_back (parse : String → Option String)
    (u0 u1 u2 : String) (h : u1 ≠ "") :
    (getTab (c2Run parse u0 u1 u2).1 "t1").map TabInfo.url = some u1 ∧
    0 ≤ (c2Run parse u0 u1 u2).2.historyIndex ∧
    (c2Run parse u0 u1 u2).2.history.get?
      (c2Run parse u0 u1 u2).2.historyIndex.toNat = some u1 := by
  have h0 : createTab mpEmpty "t1" u0 "p1" true =
      ({ tabs := [("t1", { id := "t1", title := "New Tab", url := u0,
                           contentProcessId := "p1" })],
         processes := [("p1", { id := "p1", status := .ready,
                                tabId := "t1", hasWorker := true })] },
       { id := "t1", title := "New Tab", url := u0,
         contentProcessId := "p1" }, []) := rfl
  have hA : navigateTab
      { tabs := [("t1", { id := "t1", title := "New Tab", url := u0,
                          contentProcessId := "p1" })],
        processes := [("p1", { id := "p1", status := .ready,
                               tabId := "t1", hasWorker := true })] }
      "t1" u1 =
      ({ tabs := [("t1", { id := "t1", title := "New Tab", url := u1,
                           contentProcessId := "p1" })],
         processes := [("p1", { id := "p1", status := .ready,
                                tabId := "t1", hasWorker := true })] },
       [{ type := "navigate", tabId := "t1", url := u1 }]) := rfl
  have hB : navigateTab
      { tabs := [("t1", { id := "t1", title := "New Tab", url := u1,
                          contentProcessId := "p1" })],
        processes := [("p1", { id := "p1", status := .ready,
                               tabId := "t1", hasWorker := true })] }
      "t1" u2 =
      ({ tabs := [("t1", { id := "t1", title := "New Tab", url := u2,
                           contentProcessId := "p1" })],
         processes := [("p1", { id := "p1", status := .ready,
                                tabId := "t1", hasWorker := true })] },
       [{ type := "navigate", tabId := "t1", url := u2 }]) := rfl
  have hC : sendNavigationCommand
      { tabs := [("t1", { id := "t1", title := "New Tab", url := u2,
                          contentProcessId := "p1" })],
        processes := [("p1", { id := "p1", status := .ready,
                               tabId := "t1", hasWorker := true })] }
      "t1" "back" = [{ type := "back", tabId := "t1" }] := rfl
  have hn1 : handleMainProcessMessage parse
      { tabId := "", currentUrl := "", history := [], historyIndex := -1 }
      { type := "navigate", tabId := "t1", url := u1 } =
      ({ tabId := "", currentUrl := u1, history := [u1],
         historyIndex := 0 },
       [{ type := "loadStart", tabId := "", url := u1 },
        { type := "titleChange", tabId := "",
          title := extractTitleFromUrl parse u1 },
        { type := "urlChange", tabId := "", url := u1 },
        { type := "loadComplete", tabId := "", url := u1 }]) := by
    simp [handleMainProcessMessage, navigate, simulatePageLoad, h]
  have hstep : ∀ (tb : TabInfo) (m : Msg),
      handleContentProcessMessage
        { tabs := [("t1", tb)],
          processes := [("p1", { id := "p1", status := .ready,
                                 tabId := "t1", hasWorker := true })] }
        "p1" m =
      ({ tabs := [("t1",
           if m.type = "titleChange" then
             (if m.title = "" then tb else { tb with title := m.title })
           else if m.type = "urlChange" then
             (if m.url = "" then tb else { tb with url := m.url })
           else tb)],
         processes := [("p1", { id := "p1", status := .ready,
                                tabId := "t1", hasWorker := true })] },
       []) := by
    intro tb m
    by_cases ht : m.type = "titleChange"
    · by_cases htt : m.title = "" <;>
        simp [handleContentProcessMessage, mlookup, mset, mdel, ht, htt]
    · by_cases hu : m.type = "urlChange"
      · by_cases huu : m.url = "" <;>
          simp [handleContentProcessMessage, mlookup, mset, mdel,
            ht, hu, huu]
      · simp [handleContentProcessMessage, mlookup, mset, mdel, ht, hu]
  by_cases h2 : u2 = ""
  · subst h2
    have hn2 : handleMainProcessMessage parse
        { tabId := "", currentUrl := u1, history := [u1],
          historyIndex := 0 }
        { type := "navigate", tabId := "t1", url := "" } =
        ({ tabId := "", currentUrl := u1, history := [u1],
           historyIndex := 0 }, []) := by
      simp [handleMainProcessMessage, navigate]
    have hn3 : handleMainProcessMessage parse
        { tabId := "", currentUrl := u1, history := [u1],
          historyIndex := 0 }
        { type := "back", tabId := "t1" } =
        ({ tabId := "", currentUrl := u1, history := [u1],
           historyIndex := 0 }, []) := by
      simp [handleMainProcessMessage, goBack]
    have hrun : runWorker parse
        { tabId := "", currentUrl := "", history := [],
          historyIndex := -1 }
        [{ type := "navigate", tabId := "t1", url := u1 },
         { type := "navigate", tabId := "t1", url := "" },
         { type := "back", tabId := "t1" }] =
        ({ tabId := "", currentUrl := u1, history := [u1],
           historyIndex := 0 },
         [{ type := "loadStart", tabId := "", url := u1 },
          { type := "titleChange", tabId := "",
            title := extractTitleFromUrl parse u1 },
          { type := "urlChange", tabId := "", url := u1 },
          { type := "loadComplete", tabId := "", url := u1 }]) := by
      simp [runWorker, hn1, hn2, hn3]
    have hfold : foldEvents
        { tabs := [("t1", { id := "t1", title := "New Tab", url := "",
                            contentProcessId := "p1" })],
          processes := [("p1", { id := "p1", status := .ready,
                                 tabId := "t1", hasWorker := true })] }
        "p1"
        [{ type := "loadStart", tabId := "", url := u1 },
         { type := "titleChange", tabId := "",
           title := extractTitleFromUrl parse u1 },
         { type := "urlChange", tabId := "", url := u1 },
         { type := "loadComplete", tabId := "", url := u1 }] =
        ({ tabs := [("t1",
             { id := "t1", title := extractTitleFromUrl parse u1,
               url := u1, contentProcessId := "p1" })],
           processes := [("p1", { id := "p1", status := .ready,
                                  tabId := "t1", hasWorker := true })] },
         []) := by
      simp [foldEvents, hstep, h, extractTitleFromUrl_ne_empty]
    refine ⟨?_, ?_, ?_⟩ <;>
      simp [c2Run, h0, hA, hB, hC, hrun, hfold, getTab, mlookup]
  · have hn2 : handleMainProcessMessage parse
        { tabId := "", currentUrl := u1, history := [u1],
          historyIndex := 0 }
        { type := "navigate", tabId := "t1", url := u2 } =
        ({ tabId := "", currentUrl := u2, history := [u1, u2],
           historyIndex := 1 },
         [{ type := "loadStart", tabId := "", url := u2 },
          { type := "titleChange", tabId := "",
            title := extractTitleFromUrl parse u2 },
          { type := "urlChange", tabId := "", url := u2 },
          { type := "loadComplete", tabId := "", url := u2 }]) := by
      simp [handleMainProcessMessage, navigate, simulatePageLoad, h2]
    have hn3 : handleMainProcessMessage parse
        { tabId := "", currentUrl := u2, history := [u1, u2],
          historyIndex := 1 }
        { type := "back", tabId := "t1" } =
        ({ tabId := "", currentUrl := u1, history := [u1, u2],
           historyIndex := 0 },
         [{ type := "urlChange", tabId := "", url := u1 },
          { type := "titleChange", tabId := "",
            title := extractTitleFromUrl parse u1 },
          { type := "urlChange", tabId := "", url := u1 },
          { type := "loadComplete", tabId := "", url := u1 }]) := by
      simp [handleMainProcessMessage, goBack, simulatePageLoad,
        List.getD]
    have hrun : runWorker parse
        { tabId := "", currentUrl := "", history := [],
          historyIndex := -1 }
        [{ type := "navigate", tabId := "t1", url := u1 },
         { type := "navigate", tabId := "t1", url := u2 },
         { type := "back", tabId := "t1" }] =
        ({ tabId := "", currentUrl := u1, history := [u1, u2],
           historyIndex := 0 },
         [{ type := "loadStart", tabId := "", url := u1 },
          { type := "titleChange", tabId := "",
            title := extractTitleFromUrl parse u1 },
          { type := "urlChange", tabId := "", url := u1 },
          { type := "loadComplete", tabId := "", url := u1 },
          { type := "loadStart", tabId := "", url := u2 },
          { type := "titleChange", tabId := "",
            title := extractTitleFromUrl parse u2 },
          { type := "urlChange", tabId := "", url := u2 },
          { type := "loadComplete", tabId := "", url := u2 },
          { type := "urlChange", tabId := "", url := u1 },
          { type := "titleChange", tabId := "",
            title := extractTitleFromUrl parse u1 },
          { type := "urlChange", tabId := "", url := u1 },
          { type := "loadComplete", tabId := "", url := u1 }]) := by
      simp [runWorker, hn1, hn2, hn3]
    have hfold : foldEvents
        { tabs := [("t1", { id := "t1", title := "New Tab", url := u2,
                            contentProcessId := "p1" })],
          processes := [("p1", { id := "p1", status := .ready,
                                 tabId := "t1", hasWorker := true })] }
        "p1"
        [{ type := "loadStart", tabId := "", url := u1 },
         { type := "titleChange", tabId := "",
           title := extractTitleFromUrl parse u1 },
         { type := "urlChange", tabId := "", url := u1 },
         { type := "loadComplete", tabId := "", url := u1 },
         { type := "loadStart", tabId := "", url := u2 },
         { type := "titleChange", tabId := "",
           title := extractTitleFromUrl parse u2 },
         { type := "urlChange", tabId := "", url := u2 },
         { type := "loadComplete", tabId := "", url := u2 },
         { type := "urlChange", tabId := "", url := u1 },
         { type := "titleChange", tabId := "",
           title := extractTitleFromUrl parse u1 },
         { type := "urlChange", tabId := "", url := u1 },
         { type := "loadComplete", tabId := "", url := u1 }] =
        ({ tabs := [("t1",
             { id := "t1", title := extractTitleFromUrl parse u1,
               url := u1, contentProcessId := "p1" })],
           processes := [("p1", { id := "p1", status := .ready,
                                  tabId := "t1", hasWorker := true })] },
         []) := by
      simp [foldEvents, hstep, h, h2, extractTitleFromUrl_ne_empty]
    refine ⟨?_, ?_, ?_⟩ <;>
      simp [c2Run, h0, hA, hB, hC, hrun, hfold, getTab, mlookup]

theorem navigate_navigate_back_witness :
    (getTab (c2Run urlHost "" "https://x.com/a" "https://y.com").1
      "t1").map TabInfo.url = some "https://x.com/a" ∧
    0 ≤ (c2Run urlHost "" "https://x.com/a" "https://y.com").2.historyIndex ∧
    (c2Run urlHost "" "https://x.com/a" "https://y.com").2.history.get?
      (c2Run urlHost "" "https://x.com/a"
        "https://y.com").2.historyIndex.toNat = some "https://x.com/a" :=
  navigate_navigate_back urlHost "" "https://x.com/a" "https://y.com"
    (by decide)

end Serval
